import Mathlib

/-!
Verification of the request-authorizer middleware of the guzek-uk-common
library (`src/middleware/rateLimiter.ts`, the revision exporting
`auth(debugMode)` with issuer and audience enforcement).

The middleware is embedded shallowly: the request, the response object,
the permission table, token extraction, the `reject` helper and the main
evaluation are translated definition by definition from the TypeScript
source.  JavaScript-specific behaviour (truthiness of `||` chains,
`undefined` interpolation, `exp ?? 0`) is modelled explicitly.
-/

namespace GuzekUK

/-- Splits a character list at every occurrence of the separator, keeping
empty segments, mirroring JavaScript `String.prototype.split` with a
one-character separator. -/
def splitCharList (sep : Char) : List Char → List (List Char)
  | [] => [[]]
  | c :: cs =>
    match splitCharList sep cs with
    | [] => [[c]]
    | r :: rs => if c = sep then [] :: r :: rs else (c :: r) :: rs

/-- Embeds JavaScript `s.split(" ")`. -/
def jsSplitSpace (s : String) : List String :=
  (splitCharList ' ' s.data).map (fun l => String.mk l)

/-- Embeds JavaScript `s.startsWith(p)`: the characters of `p` are a prefix
of the characters of `s`. -/
def jsStartsWith (s p : String) : Bool :=
  p.data.isPrefixOf s.data

/-- JavaScript value as it flows through the token-extraction `||` chain:
`undefined`, a string, or an array of strings (as produced by query parsing). -/
inductive JsVal where
  | undef
  | str (s : String)
  | strList (l : List String)
deriving DecidableEq, Repr

/-- JavaScript truthiness: `undefined` and the empty string are falsy;
every array (even empty) is truthy. -/
def JsVal.truthy : JsVal → Bool
  | JsVal.undef => false
  | JsVal.str s => s ≠ ""
  | JsVal.strList _ => true

/-- JavaScript `a || b`: yields `a` when `a` is truthy, otherwise `b`. -/
def jsOr (a b : JsVal) : JsVal :=
  if a.truthy then a else b

/-- The `aud` claim of a JWT payload: a single string or an array of strings. -/
inductive Aud where
  | one (s : String)
  | many (l : List String)
deriving DecidableEq, Repr

/-- JavaScript truthiness of the (possibly absent) `aud` claim, as tested by
`if (!aud)`: absent and the empty string are falsy; arrays are truthy. -/
def audTruthy : Option Aud → Bool
  | none => false
  | some (Aud.one s) => s ≠ ""
  | some (Aud.many _) => true

/-- JavaScript string interpolation of the `aud` value (template literal
`'${aud}'`): arrays stringify comma-joined, `undefined` prints as such. -/
def audToString : Option Aud → String
  | none => "undefined"
  | some (Aud.one s) => s
  | some (Aud.many l) => String.intercalate "," l

/-- JavaScript string interpolation of a possibly-`undefined` string. -/
def jsStr : Option String → String
  | none => "undefined"
  | some s => s

/-- The user-identity fields of the token payload (`UserObj` in models):
`uuid`, `username`, `email` and the optional `admin` boolean. -/
structure UserObj where
  uuid : String
  username : String
  email : String
  admin : Option Bool
deriving DecidableEq, Repr

/-- A decoded JWT payload: the standard temporal and audience claims plus the
user-identity rest that destructuring leaves in `userDetails`. -/
structure JwtPayload where
  iat : Option Nat
  exp : Option Nat
  aud : Option Aud
  iss : Option String
  user : UserObj
deriving DecidableEq, Repr

/-- The two enabled access levels of the permission table
(`cronUser` is commented out in the source). -/
inductive AccessLevel where
  | anonymous
  | authenticatedUser
deriving DecidableEq, Repr

/-- Method normalisation performed inside the permission loop:
`HEAD` is looked up as `GET`, all other methods pass through. -/
def effectiveMethod (m : String) : String :=
  if m = "HEAD" then "GET" else m

/-- The `anonymous` row of `PERMISSIONS`, as a function from method to the
configured route-prefix list; `routes[method] ?? []` makes unknown methods
yield the empty list. -/
def anonymousRoutes : String → List String
  | "GET" =>
    ["/pages",
     "/updated",
     "/liveseries/downloaded-episodes/ws/.websocket",
     "/liveseries/video",
     "/liveseries/subtitles",
     "/torrents",
     "/.well-known",
     "/health",
     "/favicon.ico"]
  | "POST" =>
    ["/auth/users",
     "/auth/tokens",
     "/auth/refresh"]
  | "PUT" => []
  | "DELETE" => ["/auth/tokens"]
  | "PATCH" => []
  | _ => []

/-- The `authenticatedUser` row of `PERMISSIONS`. -/
def authenticatedUserRoutes : String → List String
  | "GET" =>
    ["/tu-lalem",
     "/auth/usernames",
     "/auth/users/me",
     "/liveseries/shows/personal",
     "/liveseries/watched-episodes/personal"]
  | "POST" =>
    ["/tu-lalem",
     "/liveseries/shows/personal"]
  | "PUT" =>
    ["/liveseries/watched-episodes/personal",
     "/liveseries/downloaded-episodes",
     "/auth/users/me"]
  | "DELETE" => ["/liveseries/shows/personal"]
  | "PATCH" => ["/auth/users/me"]
  | _ => []

/-- The static permission table, an ordered list of (level, routes) pairs
exactly as iterated by the middleware's `for` loop. -/
def PERMISSIONS : List (AccessLevel × (String → List String)) :=
  [(AccessLevel.anonymous, anonymousRoutes),
   (AccessLevel.authenticatedUser, authenticatedUserRoutes)]

/-- The per-level accessibility flags object (`Record<AccessLevel, boolean>`). -/
structure AccessMap where
  anonymous : Bool
  authenticatedUser : Bool
deriving DecidableEq, Repr

/-- Assignment `endpointAccessibleBy[level] = b` on the flags object. -/
def AccessMap.set (m : AccessMap) : AccessLevel → Bool → AccessMap
  | AccessLevel.anonymous, b => { m with anonymous := b }
  | AccessLevel.authenticatedUser, b => { m with authenticatedUser := b }

/-- The module-level `INITIAL_ACCESS_MAP` object.  Note that the handler
executes `const endpointAccessibleBy = INITIAL_ACCESS_MAP;`, which in
JavaScript aliases this single shared object rather than copying it, so
every request's flag computation writes into the same object. -/
def INITIAL_ACCESS_MAP : AccessMap :=
  { anonymous := false, authenticatedUser := false }

/-- The flag-computation loop of the handler: for each level of
`PERMISSIONS`, writes into the map object whether any configured prefix for
the effective method is a prefix of the request path.  The map argument is
the object that `endpointAccessibleBy` aliases (the shared
`INITIAL_ACCESS_MAP`), threaded explicitly. -/
def computeAccessMap (method path : String) (m : AccessMap) : AccessMap :=
  PERMISSIONS.foldl
    (fun acc lr =>
      acc.set lr.1 ((lr.2 (effectiveMethod method)).any (fun endpoint => jsStartsWith path endpoint)))
    m

/-- The `STATUS_CODES` lookup table from `util.ts`; indexing a code outside
the table would give `undefined` in JavaScript. -/
def statusCodeName : Nat → String
  | 200 => "OK"
  | 201 => "Created"
  | 204 => "No Content"
  | 206 => "Partial Content"
  | 400 => "Bad Request"
  | 401 => "Unauthorised"
  | 403 => "Forbidden"
  | 404 => "Not Found"
  | 405 => "Method Not Allowed"
  | 409 => "Conflict"
  | 429 => "Too Many Requests"
  | 500 => "Internal Server Error"
  | 503 => "Service Unavailable"
  | _ => "undefined"

/-- The `getStatusText` helper: the code followed by its reason phrase. -/
def getStatusText (code : Nat) : String :=
  Nat.repr code ++ " " ++ statusCodeName code

/-- The observable state of the Express response object, restricted to the
fields the middleware can touch, plus the untouched remainder of headers. -/
structure HttpResponse where
  statusSent : Option Nat
  bodySent : Option (String × String)
  wwwAuthenticate : Option String
  otherHeaders : List (String × String)
deriving DecidableEq, Repr

/-- The `sendError` helper from `lib/http.ts`, specialised to a string
message: `res.status(code).json({ [getStatusText(code)]: message })`. -/
def sendError (code : Nat) (message : String) (res : HttpResponse) : HttpResponse :=
  { res with statusSent := some code, bodySent := some (getStatusText code, message) }

/-- The incoming request as observed by the middleware. -/
structure AuthRequest where
  method : String
  path : String
  authorizationHeader : Option String
  queryAccessToken : JsVal
  cookieAccessToken : JsVal
  cookieRefreshToken : JsVal
  protocol : String
  hostHeader : Option String
deriving DecidableEq, Repr

/-- Log events emitted by the handler's logger calls. -/
inductive LogEvent where
  | refreshTokenWarning
  | verifyErrorLog (err : String)
  | invalidIssuerWarning (iss : String)
  | audienceMismatchWarning (aud url : String)
  | adminOverrideDebug (username method path : String)
deriving DecidableEq, Repr

/-- The complete observable result of one evaluation of the middleware:
the final response state, whether `next()` was invoked, the identity
attached to `req.user`, and the emitted log events. -/
structure AuthResult where
  res : HttpResponse
  nextCalled : Bool
  user : Option UserObj
  logs : List LogEvent
deriving DecidableEq, Repr

/-- Construction-time configuration of `auth(debugMode)`: the debug flag and
the two environment variables it combines with. -/
structure AuthConfig where
  debugMode : Bool
  envDisableAuth : Option String
  envUseLocalAuthUrl : Option String
deriving DecidableEq, Repr

/-- The fixed production identity-provider origin. -/
def PRODUCTION_AUTH_SERVER_URL : String := "https://auth.guzek.uk"

/-- The token-expiry enforcement flag (`const VERIFY_TOKEN_EXPIRY = true`). -/
def VERIFY_TOKEN_EXPIRY : Bool := true

/-- Derivation of `DISABLE_AUTH`: debug mode and the environment escape
hatch being the literal string true. -/
def DISABLE_AUTH (cfg : AuthConfig) : Bool :=
  cfg.debugMode && cfg.envDisableAuth == some "true"

/-- Derivation of `USE_LOCAL_AUTH_URL`. -/
def USE_LOCAL_AUTH_URL (cfg : AuthConfig) : Bool :=
  cfg.debugMode && cfg.envUseLocalAuthUrl == some "true"

/-- Derivation of `AUTH_SERVER_URL`, the identity-provider base URL. -/
def AUTH_SERVER_URL (cfg : AuthConfig) : String :=
  if USE_LOCAL_AUTH_URL cfg then "http://localhost:5019" else PRODUCTION_AUTH_SERVER_URL

/-- A single-quote character, used by the template-literal messages. -/
def apos : String := String.singleton (Char.ofNat 39)

/-- The value of the `WWW-Authenticate` header set on an emitted 401. -/
def wwwAuthHeaderValue (serverUrl message : String) : String :=
  "Bearer realm=\"" ++ serverUrl ++ "\", error=\"invalid_token\", error_description=\""
    ++ message ++ "\""

/-- Embeds `req.headers.authorization?.split(" ")?.[1]`: the second
whitespace-separated part of the header, or `undefined`. -/
def headerTokenPart (header : Option String) : JsVal :=
  match header with
  | none => JsVal.undef
  | some a =>
    match (jsSplitSpace a).get? 1 with
    | none => JsVal.undef
    | some t => JsVal.str t

/-- The token-extraction chain
`header-part || req.query.access_token || req.cookies.access_token`. -/
def extractToken (req : AuthRequest) : JsVal :=
  jsOr (jsOr (headerTokenPart req.authorizationHeader) req.queryAccessToken)
    req.cookieAccessToken

/-- The guard `if (!token || typeof token !== "string")`: the extracted value
is usable exactly when it is a non-empty string. -/
def tokenUsable : JsVal → Option String
  | JsVal.str s => if s = "" then none else some s
  | _ => none

/-- The request's own origin `{protocol}://{host}/` against which the
audience is compared. -/
def requestUrl (req : AuthRequest) : String :=
  req.protocol ++ "://" ++ jsStr req.hostHeader ++ "/"

/-- The `isValidAudience` arrow function: `[url, "*"].includes(audience)`. -/
def isValidAudience (url audience : String) : Bool :=
  audience = url || audience = "*"

/-- The audience test
`Array.isArray(aud) ? !aud.some(isValidAudience) : !isValidAudience(aud)`:
true exactly when the check fails.  An absent `aud` cannot reach this test
(it is guarded by `if (!aud)`), but would fail it in JavaScript. -/
def audFailsCheck (aud : Option Aud) (url : String) : Bool :=
  match aud with
  | some (Aud.many l) => !(l.any (fun a => isValidAudience url a))
  | some (Aud.one s) => !(isValidAudience url s)
  | none => true

/-- The refresh-token side-channel warning: emitted when a refresh-token
cookie is present on any request other than a `DELETE` to `/auth/tokens`. -/
def refreshWarnLogs (req : AuthRequest) : List LogEvent :=
  if req.cookieRefreshToken.truthy
      && (req.method ≠ "DELETE" || !(jsStartsWith req.path "/auth/tokens")) then
    [LogEvent.refreshTokenWarning]
  else []

/-- The self-service condition: the request path starts with
`/auth/user/` followed by the given uuid and the raw method is one of
`GET`, `PUT`, `PATCH`. -/
def selfServiceRequest (req : AuthRequest) (uuid : String) : Bool :=
  jsStartsWith req.path ("/auth/user/" ++ uuid)
    && (req.method == "GET" || req.method == "PUT" || req.method == "PATCH")

/-- Accessibility of the request's path and effective method at the
`anonymous` level: some configured prefix matches. -/
def anonymousAccessible (req : AuthRequest) : Bool :=
  (anonymousRoutes (effectiveMethod req.method)).any (fun endpoint => jsStartsWith req.path endpoint)

/-- Accessibility of the request's path and effective method at the
`authenticatedUser` level. -/
def authenticatedAccessible (req : AuthRequest) : Bool :=
  (authenticatedUserRoutes (effectiveMethod req.method)).any (fun endpoint => jsStartsWith req.path endpoint)

/-- Some audience value of the claim equals the given origin or the
wildcard: the positive phrasing of the audience check. -/
def audSomeValid (aud : Option Aud) (url : String) : Bool :=
  match aud with
  | none => false
  | some (Aud.one s) => isValidAudience url s
  | some (Aud.many l) => l.any (fun a => isValidAudience url a)

/-- The handler's `reject(code, message)` closure composed with `sendError`:
suppressed (calling `next()`, leaving the response untouched) when the route
is anonymous-accessible or authentication is disabled; otherwise sets the
`WWW-Authenticate` header for a 401 and sends the error response. -/
def applyReject (anon disableAuth : Bool) (serverUrl : String) (res : HttpResponse)
    (code : Nat) (message : String) (user : Option UserObj) (logs : List LogEvent) :
    AuthResult :=
  if anon || disableAuth then
    { res := res, nextCalled := true, user := user, logs := logs }
  else
    let res1 :=
      if code == 401 then
        { res with wwwAuthenticate := some (wwwAuthHeaderValue serverUrl message) }
      else res
    { res := sendError code message res1, nextCalled := false, user := user, logs := logs }

/-- One evaluation of the middleware returned by `auth(debugMode)`, with the
outcome of the external `jwt.verify` call supplied as `verifyResult` and the
current epoch time in milliseconds as `now`.  The flag-computation phase is
applied to a fresh map here; its interaction with the shared
`INITIAL_ACCESS_MAP` object is treated separately (the computed flags do not
depend on the map's prior contents, see `computeAccessMap_overwrites`). -/
def auth (cfg : AuthConfig) (now : Nat) (req : AuthRequest)
    (verifyResult : Except String JwtPayload) (res : HttpResponse) : AuthResult :=
  let disableAuth := DISABLE_AUTH cfg
  let serverUrl := AUTH_SERVER_URL cfg
  let flags := computeAccessMap req.method req.path INITIAL_ACCESS_MAP
  let logs0 := refreshWarnLogs req
  match tokenUsable (extractToken req) with
  | none =>
    applyReject flags.anonymous disableAuth serverUrl res 401
      "Missing authorisation token." none logs0
  | some _token =>
    match verifyResult with
    | Except.error e =>
      applyReject flags.anonymous disableAuth serverUrl res 401
        "Invalid authorisation token." none (logs0 ++ [LogEvent.verifyErrorLog e])
    | Except.ok payload =>
      let user := payload.user
      if VERIFY_TOKEN_EXPIRY && decide (payload.exp.getD 0 < now) then
        applyReject flags.anonymous disableAuth serverUrl res 401
          "Access token is expired." (some user) logs0
      else if payload.iss ≠ some PRODUCTION_AUTH_SERVER_URL then
        applyReject flags.anonymous disableAuth serverUrl res 401
          ("Invalid access token issuer: " ++ apos ++ jsStr payload.iss ++ apos)
          (some user) (logs0 ++ [LogEvent.invalidIssuerWarning (jsStr payload.iss)])
      else if !(audTruthy payload.aud) then
        applyReject flags.anonymous disableAuth serverUrl res 401
          "Access token does not specify intended audience." (some user) logs0
      else if audFailsCheck payload.aud (requestUrl req) then
        applyReject flags.anonymous disableAuth serverUrl res 401
          ("This access token is only valid for: " ++ apos ++ audToString payload.aud ++ apos)
          (some user)
          (logs0 ++ [LogEvent.audienceMismatchWarning (audToString payload.aud) (requestUrl req)])
      else if flags.authenticatedUser then
        { res := res, nextCalled := true, user := some user, logs := logs0 }
      else if selfServiceRequest req user.uuid then
        { res := res, nextCalled := true, user := some user, logs := logs0 }
      else if user.admin.getD false then
        { res := res, nextCalled := true, user := some user,
          logs := logs0 ++ [LogEvent.adminOverrideDebug user.username req.method req.path] }
      else
        applyReject flags.anonymous disableAuth serverUrl res 403
          "You cannot perform that action." (some user) logs0

/-- Outcome of the JWKS signing-key lookup for a token's key id. -/
inductive SigningKeyLookup where
  | failure (err : String)
  | success (publicKey : String)
deriving DecidableEq, Repr

/-- Embeds `getKey`: a signing-key lookup error is forwarded to the verify
callback unchanged; a successful lookup passes the public key on. -/
def getKey : SigningKeyLookup → Except String String
  | SigningKeyLookup.failure err => Except.error err
  | SigningKeyLookup.success key => Except.ok key

/-- Models the external jsonwebtoken collaborator (spec section 4.1 step 5):
when the key resolver reports an error, verification fails with that error;
otherwise the cryptographic outcome decides. -/
def jwtVerify (lookup : SigningKeyLookup) (cryptoResult : Except String JwtPayload) :
    Except String JwtPayload :=
  match getKey lookup with
  | Except.error e => Except.error e
  | Except.ok _ => cryptoResult

/-- A fresh response object: nothing sent, no headers. -/
def resEmpty : HttpResponse :=
  { statusSent := none, bodySent := none, wwwAuthenticate := none, otherHeaders := [] }

/-- Production configuration: debug off, no environment escape hatches. -/
def cfgProd : AuthConfig :=
  { debugMode := false, envDisableAuth := none, envUseLocalAuthUrl := none }

/-- Debug configuration with authentication disabled via the environment. -/
def cfgDebugNoAuth : AuthConfig :=
  { debugMode := true, envDisableAuth := some "true", envUseLocalAuthUrl := none }

/-- Anonymous-accessible request: `GET /pages` with no token anywhere. -/
def reqPagesAnon : AuthRequest :=
  { method := "GET", path := "/pages", authorizationHeader := none,
    queryAccessToken := JsVal.undef, cookieAccessToken := JsVal.undef,
    cookieRefreshToken := JsVal.undef, protocol := "https",
    hostHeader := some "api.guzek.uk" }

/-- Tokenless request to a route in no level of the permission table. -/
def reqPostPlain : AuthRequest :=
  { method := "POST", path := "/external-data", authorizationHeader := none,
    queryAccessToken := JsVal.undef, cookieAccessToken := JsVal.undef,
    cookieRefreshToken := JsVal.undef, protocol := "https",
    hostHeader := some "api.guzek.uk" }

/-- Request with a bearer token to a route in no level of the table. -/
def reqPostTok : AuthRequest :=
  { method := "POST", path := "/external-data",
    authorizationHeader := some "Bearer abc",
    queryAccessToken := JsVal.undef, cookieAccessToken := JsVal.undef,
    cookieRefreshToken := JsVal.undef, protocol := "https",
    hostHeader := some "api.guzek.uk" }

/-- Request with a bearer token to `GET /tu-lalem`, a route accessible to
`authenticatedUser`. -/
def reqTuLalemTok : AuthRequest :=
  { method := "GET", path := "/tu-lalem", authorizationHeader := some "Bearer abc",
    queryAccessToken := JsVal.undef, cookieAccessToken := JsVal.undef,
    cookieRefreshToken := JsVal.undef, protocol := "https",
    hostHeader := some "api.guzek.uk" }

/-- Request with a bearer token to `PUT /auth/user/u1`, a route in no level
of the permission table. -/
def reqSelfTok : AuthRequest :=
  { method := "PUT", path := "/auth/user/u1", authorizationHeader := some "Bearer abc",
    queryAccessToken := JsVal.undef, cookieAccessToken := JsVal.undef,
    cookieRefreshToken := JsVal.undef, protocol := "https",
    hostHeader := some "api.guzek.uk" }

/-- A fully valid admin payload: wildcard audience, production issuer,
far-future expiry (in the unit the code actually compares). -/
def payloadAdmin : JwtPayload :=
  { iat := some 1, exp := some 99999, aud := some (Aud.one "*"),
    iss := some "https://auth.guzek.uk",
    user := { uuid := "u1", username := "alice", email := "alice@example.com",
              admin := some true } }

/-- A fully valid non-admin payload. -/
def payloadPlain : JwtPayload :=
  { iat := some 1, exp := some 99999, aud := some (Aud.one "*"),
    iss := some "https://auth.guzek.uk",
    user := { uuid := "u1", username := "alice", email := "alice@example.com",
              admin := none } }

/-- A payload valid in every respect except that its `aud` is the empty
string: present as a claim, but falsy in JavaScript. -/
def payloadEmptyAud : JwtPayload :=
  { iat := some 1, exp := some 99999, aud := some (Aud.one ""),
    iss := some "https://auth.guzek.uk",
    user := { uuid := "u1", username := "alice", email := "alice@example.com",
              admin := none } }

/-- A verified payload whose `exp` lies in the past relative to the test
clock. -/
def payloadExpired : JwtPayload :=
  { iat := some 1, exp := some 10, aud := some (Aud.one "*"),
    iss := some "https://auth.guzek.uk",
    user := { uuid := "u1", username := "alice", email := "alice@example.com",
              admin := none } }

/-- Proposition that a middleware run emitted a rejection with the given
status code and message (no `next()`, status sent, body keyed by the
status text carrying the message). -/
def RejectedWith (r : AuthResult) (code : Nat) (message : String) : Prop :=
  r.nextCalled = false ∧ r.res.statusSent = some code
    ∧ r.res.bodySent = some (getStatusText code, message)

instance (r : AuthResult) (code : Nat) (message : String) :
    Decidable (RejectedWith r code message) :=
  inferInstanceAs (Decidable (r.nextCalled = false ∧ r.res.statusSent = some code
    ∧ r.res.bodySent = some (getStatusText code, message)))

theorem computeAccessMap_flags (m p : String) (s : AccessMap) :
    computeAccessMap m p s =
      { anonymous := (anonymousRoutes (effectiveMethod m)).any (fun e => jsStartsWith p e),
        authenticatedUser :=
          (authenticatedUserRoutes (effectiveMethod m)).any (fun e => jsStartsWith p e) } := rfl

theorem applyReject_suppressed {anon d : Bool} (u : String) (res : HttpResponse)
    (code : Nat) (msg : String) (user : Option UserObj) (logs : List LogEvent)
    (h : anon = true ∨ d = true) :
    applyReject anon d u res code msg user logs =
      { res := res, nextCalled := true, user := user, logs := logs } := by
  rcases h with h | h <;> simp [applyReject, h]

theorem applyReject_emitted {anon d : Bool} (u : String) (res : HttpResponse)
    (code : Nat) (msg : String) (user : Option UserObj) (logs : List LogEvent)
    (ha : anon = false) (hd : d = false) :
    applyReject anon d u res code msg user logs =
      { res := sendError code msg
          (if code == 401 then
            { res with wwwAuthenticate := some (wwwAuthHeaderValue u msg) }
          else res),
        nextCalled := false, user := user, logs := logs } := by
  simp [applyReject, ha, hd]

theorem applyReject_status {anon d : Bool} {u : String} {res : HttpResponse}
    {code : Nat} {msg : String} {user : Option UserObj} {logs : List LogEvent}
    (h : (applyReject anon d u res code msg user logs).nextCalled = false) :
    (applyReject anon d u res code msg user logs).res.statusSent = some code := by
  revert h
  unfold applyReject
  split
  · intro h
    simp at h
  · intro _
    split <;> simp [sendError]

theorem applyReject_otherHeaders (anon d : Bool) (u : String) (res : HttpResponse)
    (code : Nat) (msg : String) (user : Option UserObj) (logs : List LogEvent) :
    (applyReject anon d u res code msg user logs).res.otherHeaders = res.otherHeaders := by
  unfold applyReject
  split
  · rfl
  · split <;> simp [sendError]

theorem auth_missing_token {cfg : AuthConfig} {now : Nat} {req : AuthRequest}
    {vr : Except String JwtPayload} {res : HttpResponse}
    (h : tokenUsable (extractToken req) = none) :
    auth cfg now req vr res =
      applyReject (anonymousAccessible req) (DISABLE_AUTH cfg) (AUTH_SERVER_URL cfg) res 401
        "Missing authorisation token." none (refreshWarnLogs req) := by
  simp only [auth, h]
  rfl

theorem auth_verify_error {cfg : AuthConfig} {now : Nat} {req : AuthRequest}
    {res : HttpResponse} {t e : String}
    (ht : tokenUsable (extractToken req) = some t) :
    auth cfg now req (Except.error e) res =
      applyReject (anonymousAccessible req) (DISABLE_AUTH cfg) (AUTH_SERVER_URL cfg) res 401
        "Invalid authorisation token." none
        (refreshWarnLogs req ++ [LogEvent.verifyErrorLog e]) := by
  simp only [auth, ht]
  rfl

theorem auth_expired {cfg : AuthConfig} {now : Nat} {req : AuthRequest}
    {p : JwtPayload} {res : HttpResponse} {t : String}
    (ht : tokenUsable (extractToken req) = some t)
    (hexp : p.exp.getD 0 < now) :
    auth cfg now req (Except.ok p) res =
      applyReject (anonymousAccessible req) (DISABLE_AUTH cfg) (AUTH_SERVER_URL cfg) res 401
        "Access token is expired." (some p.user) (refreshWarnLogs req) := by
  have hc : (VERIFY_TOKEN_EXPIRY && decide (p.exp.getD 0 < now)) = true := by
    simp [VERIFY_TOKEN_EXPIRY, hexp]
  simp only [auth, ht, hc, if_true]
  rfl

theorem auth_bad_issuer {cfg : AuthConfig} {now : Nat} {req : AuthRequest}
    {p : JwtPayload} {res : HttpResponse} {t : String}
    (ht : tokenUsable (extractToken req) = some t)
    (hexp : ¬ (p.exp.getD 0 < now))
    (hiss : p.iss ≠ some PRODUCTION_AUTH_SERVER_URL) :
    auth cfg now req (Except.ok p) res =
      applyReject (anonymousAccessible req) (DISABLE_AUTH cfg) (AUTH_SERVER_URL cfg) res 401
        ("Invalid access token issuer: " ++ apos ++ jsStr p.iss ++ apos) (some p.user)
        (refreshWarnLogs req ++ [LogEvent.invalidIssuerWarning (jsStr p.iss)]) := by
  have hc : (VERIFY_TOKEN_EXPIRY && decide (p.exp.getD 0 < now)) = false := by
    simp [VERIFY_TOKEN_EXPIRY, hexp]
  simp only [auth, ht, hc, Bool.false_eq_true, if_false, if_pos hiss]
  rfl

theorem auth_no_audience {cfg : AuthConfig} {now : Nat} {req : AuthRequest}
    {p : JwtPayload} {res : HttpResponse} {t : String}
    (ht : tokenUsable (extractToken req) = some t)
    (hexp : ¬ (p.exp.getD 0 < now))
    (hiss : p.iss = some PRODUCTION_AUTH_SERVER_URL)
    (haud : audTruthy p.aud = false) :
    auth cfg now req (Except.ok p) res =
      applyReject (anonymousAccessible req) (DISABLE_AUTH cfg) (AUTH_SERVER_URL cfg) res 401
        "Access token does not specify intended audience." (some p.user)
        (refreshWarnLogs req) := by
  have hc : (VERIFY_TOKEN_EXPIRY && decide (p.exp.getD 0 < now)) = false := by
    simp [VERIFY_TOKEN_EXPIRY, hexp]
  have hniss : ¬ (p.iss ≠ some PRODUCTION_AUTH_SERVER_URL) := fun hne => hne hiss
  simp only [auth, ht, hc, Bool.false_eq_true, if_false, if_neg hniss, haud,
    Bool.not_false, if_true]
  rfl

theorem auth_aud_mismatch {cfg : AuthConfig} {now : Nat} {req : AuthRequest}
    {p : JwtPayload} {res : HttpResponse} {t : String}
    (ht : tokenUsable (extractToken req) = some t)
    (hexp : ¬ (p.exp.getD 0 < now))
    (hiss : p.iss = some PRODUCTION_AUTH_SERVER_URL)
    (haud : audTruthy p.aud = true)
    (hfail : audFailsCheck p.aud (requestUrl req) = true) :
    auth cfg now req (Except.ok p) res =
      applyReject (anonymousAccessible req) (DISABLE_AUTH cfg) (AUTH_SERVER_URL cfg) res 401
        ("This access token is only valid for: " ++ apos ++ audToString p.aud ++ apos)
        (some p.user)
        (refreshWarnLogs req
          ++ [LogEvent.audienceMismatchWarning (audToString p.aud) (requestUrl req)]) := by
  have hc : (VERIFY_TOKEN_EXPIRY && decide (p.exp.getD 0 < now)) = false := by
    simp [VERIFY_TOKEN_EXPIRY, hexp]
  have hniss : ¬ (p.iss ≠ some PRODUCTION_AUTH_SERVER_URL) := fun hne => hne hiss
  simp only [auth, ht, hc, Bool.false_eq_true, if_false, if_neg hniss, haud,
    Bool.not_true, hfail, if_true]
  rfl

theorem auth_valid_token {cfg : AuthConfig} {now : Nat} {req : AuthRequest}
    {p : JwtPayload} {res : HttpResponse} {t : String}
    (ht : tokenUsable (extractToken req) = some t)
    (hexp : ¬ (p.exp.getD 0 < now))
    (hiss : p.iss = some PRODUCTION_AUTH_SERVER_URL)
    (haud : audTruthy p.aud = true)
    (hfail : audFailsCheck p.aud (requestUrl req) = false) :
    auth cfg now req (Except.ok p) res =
      (if authenticatedAccessible req then
        { res := res, nextCalled := true, user := some p.user, logs := refreshWarnLogs req }
      else if selfServiceRequest req p.user.uuid then
        { res := res, nextCalled := true, user := some p.user, logs := refreshWarnLogs req }
      else if p.user.admin.getD false then
        { res := res, nextCalled := true, user := some p.user,
          logs := refreshWarnLogs req
            ++ [LogEvent.adminOverrideDebug p.user.username req.method req.path] }
      else
        applyReject (anonymousAccessible req) (DISABLE_AUTH cfg) (AUTH_SERVER_URL cfg) res 403
          "You cannot perform that action." (some p.user) (refreshWarnLogs req)) := by
  have hc : (VERIFY_TOKEN_EXPIRY && decide (p.exp.getD 0 < now)) = false := by
    simp [VERIFY_TOKEN_EXPIRY, hexp]
  have hniss : ¬ (p.iss ≠ some PRODUCTION_AUTH_SERVER_URL) := fun hne => hne hiss
  simp only [auth, ht, hc, Bool.false_eq_true, if_false, if_neg hniss, haud,
    Bool.not_true, hfail, if_true]
  rfl

theorem applyReject_res_of_next {anon d : Bool} {u : String} {res : HttpResponse}
    {code : Nat} {msg : String} {user : Option UserObj} {logs : List LogEvent}
    (h : (applyReject anon d u res code msg user logs).nextCalled = true) :
    (applyReject anon d u res code msg user logs).res = res := by
  revert h
  unfold applyReject
  split
  · intro _
    rfl
  · intro h
    simp at h

theorem applyReject_logs_agnostic (anon d : Bool) (u : String) (res : HttpResponse)
    (code : Nat) (msg : String) (user : Option UserObj) (l1 l2 : List LogEvent) :
    (applyReject anon d u res code msg user l1).res
        = (applyReject anon d u res code msg user l2).res
    ∧ (applyReject anon d u res code msg user l1).nextCalled
        = (applyReject anon d u res code msg user l2).nextCalled := by
  unfold applyReject
  split <;> simp

theorem applyReject_www401 (anon d : Bool) (u : String) (res : HttpResponse)
    (msg : String) (user : Option UserObj) (logs : List LogEvent)
    (hw : res.wwwAuthenticate = none) :
    ((∃ v, (applyReject anon d u res 401 msg user logs).res.wwwAuthenticate = some v)
      ↔ ((applyReject anon d u res 401 msg user logs).nextCalled = false
          ∧ (applyReject anon d u res 401 msg user logs).res.statusSent = some 401)) := by
  unfold applyReject
  split
  · simp [hw]
  · simp [sendError]

theorem applyReject_www403 (anon d : Bool) (u : String) (res : HttpResponse)
    (msg : String) (user : Option UserObj) (logs : List LogEvent)
    (hw : res.wwwAuthenticate = none) :
    ((∃ v, (applyReject anon d u res 403 msg user logs).res.wwwAuthenticate = some v)
      ↔ ((applyReject anon d u res 403 msg user logs).nextCalled = false
          ∧ (applyReject anon d u res 403 msg user logs).res.statusSent = some 401)) := by
  unfold applyReject
  split
  · simp [hw]
  · simp [sendError, hw]

theorem applyReject_www_value (anon d : Bool) (u : String) (res : HttpResponse)
    (msg : String) (user : Option UserObj) (logs : List LogEvent) (m : String)
    (h1 : (applyReject anon d u res 401 msg user logs).nextCalled = false)
    (h3 : (applyReject anon d u res 401 msg user logs).res.bodySent
        = some (getStatusText 401, m)) :
    (applyReject anon d u res 401 msg user logs).res.wwwAuthenticate
      = some (wwwAuthHeaderValue u m) := by
  revert h1 h3
  unfold applyReject
  split
  · intro h1 _
    simp at h1
  · intro _ h3
    simp [sendError] at h3
    simp [sendError, h3]

/-- C1: whenever the request's path and effective method match a prefix
configured for the `anonymous` level, or `disableAuth` is true, no rejection
point of the evaluation ever emits: the run always ends in `next()` with the
response object untouched. -/
theorem auth_never_rejects_when_anonymous_or_disabled (cfg : AuthConfig) (now : Nat)
    (req : AuthRequest) (vr : Except String JwtPayload) (res : HttpResponse)
    (h : anonymousAccessible req = true ∨ DISABLE_AUTH cfg = true) :
    (auth cfg now req vr res).nextCalled = true ∧ (auth cfg now req vr res).res = res := by
  have hA : (computeAccessMap req.method req.path INITIAL_ACCESS_MAP).anonymous = true
      ∨ DISABLE_AUTH cfg = true := h
  simp only [auth]
  repeat' split
  all_goals try exact ⟨rfl, rfl⟩
  all_goals rw [applyReject_suppressed _ _ _ _ _ _ hA]
  all_goals exact ⟨rfl, rfl⟩

theorem auth_never_rejects_when_anonymous_or_disabled_witness :
    (anonymousAccessible reqPagesAnon = true ∨ DISABLE_AUTH cfgProd = true)
    ∧ (auth cfgProd 1000 reqPagesAnon (Except.error "keyfail") resEmpty).nextCalled = true
    ∧ (auth cfgProd 1000 reqPagesAnon (Except.error "keyfail") resEmpty).res = resEmpty :=
  ⟨Or.inl (by decide),
    (auth_never_rejects_when_anonymous_or_disabled cfgProd 1000 reqPagesAnon
      (Except.error "keyfail") resEmpty (Or.inl (by decide))).1,
    (auth_never_rejects_when_anonymous_or_disabled cfgProd 1000 reqPagesAnon
      (Except.error "keyfail") resEmpty (Or.inl (by decide))).2⟩

/-- C7: for every path and prior flag state, the accessibility flags
computed for a `HEAD` request equal the flags for a `GET` request to the
same path, and every other method is looked up in the table under that
method unchanged. -/
theorem head_normalised_to_get :
    (∀ path s, computeAccessMap "HEAD" path s = computeAccessMap "GET" path s)
    ∧ (∀ m path s, m ≠ "HEAD" →
        computeAccessMap m path s =
          { anonymous := (anonymousRoutes m).any (fun e => jsStartsWith path e),
            authenticatedUser :=
              (authenticatedUserRoutes m).any (fun e => jsStartsWith path e) }) := by
  constructor
  · intro path s
    rfl
  · intro m path s hm
    rw [computeAccessMap_flags]
    unfold effectiveMethod
    rw [if_neg hm]

theorem head_normalised_to_get_witness :
    computeAccessMap "HEAD" "/pages" INITIAL_ACCESS_MAP
        = computeAccessMap "GET" "/pages" INITIAL_ACCESS_MAP
    ∧ ("POST" : String) ≠ "HEAD"
    ∧ computeAccessMap "POST" "/auth/users" INITIAL_ACCESS_MAP =
        { anonymous := (anonymousRoutes "POST").any (fun e => jsStartsWith "/auth/users" e),
          authenticatedUser :=
            (authenticatedUserRoutes "POST").any (fun e => jsStartsWith "/auth/users" e) } :=
  ⟨head_normalised_to_get.1 "/pages" INITIAL_ACCESS_MAP, by decide,
    head_normalised_to_get.2 "POST" "/auth/users" INITIAL_ACCESS_MAP (by decide)⟩

/-- C10: the accessibility flags are NOT private to each request.  The
handler executes `const endpointAccessibleBy = INITIAL_ACCESS_MAP;`, which
aliases the single module-level object, so the flag-computation phase of the
next request overwrites the flags the previous request's pending callbacks
still read: after request B (`POST /external-data`) runs its flag phase on
the object request A (`GET /pages`) had set, A's anonymous flag has been
flipped from `true` to `false`. -/
theorem shared_access_map_overwritten_by_next_request :
    (computeAccessMap "GET" "/pages" INITIAL_ACCESS_MAP).anonymous = true
    ∧ (computeAccessMap "POST" "/external-data"
        (computeAccessMap "GET" "/pages" INITIAL_ACCESS_MAP)).anonymous = false
    ∧ computeAccessMap "POST" "/external-data"
          (computeAccessMap "GET" "/pages" INITIAL_ACCESS_MAP)
        ≠ computeAccessMap "GET" "/pages" INITIAL_ACCESS_MAP := by
  decide

/-- C4: the bearer token is taken from the first truthy source in the order
header part, query parameter, cookie; when the chain yields nothing usable
as a string, the run rejects 401 with the missing-token message (here stated
for routes that are not anonymous-accessible with auth enabled; otherwise
the rejection is suppressed). -/
theorem token_extraction_priority_and_missing_rejection (cfg : AuthConfig) (now : Nat)
    (req : AuthRequest) (vr : Except String JwtPayload) (res : HttpResponse)
    (hanon : anonymousAccessible req = false) (hdis : DISABLE_AUTH cfg = false) :
    ((headerTokenPart req.authorizationHeader).truthy = true →
      extractToken req = headerTokenPart req.authorizationHeader)
    ∧ ((headerTokenPart req.authorizationHeader).truthy = false →
        req.queryAccessToken.truthy = true → extractToken req = req.queryAccessToken)
    ∧ ((headerTokenPart req.authorizationHeader).truthy = false →
        req.queryAccessToken.truthy = false → extractToken req = req.cookieAccessToken)
    ∧ (tokenUsable (extractToken req) = none →
        RejectedWith (auth cfg now req vr res) 401 "Missing authorisation token.") := by
  refine ⟨?_, ?_, ?_, ?_⟩
  · intro h1
    simp [extractToken, jsOr, h1]
  · intro h1 h2
    simp [extractToken, jsOr, h1, h2]
  · intro h1 h2
    simp [extractToken, jsOr, h1, h2]
  · intro h
    rw [auth_missing_token h, applyReject_emitted _ _ _ _ _ _ hanon hdis]
    simp [RejectedWith, sendError]

theorem token_extraction_priority_and_missing_rejection_witness :
    anonymousAccessible reqPostPlain = false
    ∧ DISABLE_AUTH cfgProd = false
    ∧ tokenUsable (extractToken reqPostPlain) = none
    ∧ RejectedWith (auth cfgProd 1000 reqPostPlain (Except.error "ignored") resEmpty) 401
        "Missing authorisation token." :=
  ⟨by decide, by decide, by decide,
    (token_extraction_priority_and_missing_rejection cfgProd 1000 reqPostPlain
      (Except.error "ignored") resEmpty (by decide) (by decide)).2.2.2 (by decide)⟩

/-- C9: every emitted rejection carries status 401 or 403 (never 500), and a
JWKS key-resolution failure is forwarded by `getKey` into a verification
failure, rejected 401 with the invalid-token message, with the same response
and control flow as any other verification error. -/
theorem rejections_are_401_or_403_and_key_failure_is_invalid_token (cfg : AuthConfig)
    (now : Nat) (req : AuthRequest) (res : HttpResponse) (e t : String)
    (crypto : Except String JwtPayload)
    (hanon : anonymousAccessible req = false) (hdis : DISABLE_AUTH cfg = false)
    (ht : tokenUsable (extractToken req) = some t) :
    (∀ (c : AuthConfig) (n : Nat) (r : AuthRequest) (v : Except String JwtPayload)
        (s : HttpResponse),
      (auth c n r v s).nextCalled = false →
        (auth c n r v s).res.statusSent = some 401
        ∨ (auth c n r v s).res.statusSent = some 403)
    ∧ jwtVerify (SigningKeyLookup.failure e) crypto = Except.error e
    ∧ RejectedWith (auth cfg now req (jwtVerify (SigningKeyLookup.failure e) crypto) res)
        401 "Invalid authorisation token."
    ∧ (∀ e2, (auth cfg now req (jwtVerify (SigningKeyLookup.failure e) crypto) res).res
          = (auth cfg now req (Except.error e2) res).res
        ∧ (auth cfg now req (jwtVerify (SigningKeyLookup.failure e) crypto) res).nextCalled
          = (auth cfg now req (Except.error e2) res).nextCalled) := by
  have hv : jwtVerify (SigningKeyLookup.failure e) crypto = Except.error e := rfl
  refine ⟨?_, hv, ?_, ?_⟩
  · intro c n r v s
    simp only [auth]
    repeat' split
    all_goals intro hfalse
    all_goals first
      | exact Or.inl (applyReject_status hfalse)
      | exact Or.inr (applyReject_status hfalse)
      | simp at hfalse
  · rw [hv, auth_verify_error ht, applyReject_emitted _ _ _ _ _ _ hanon hdis]
    simp [RejectedWith, sendError]
  · intro e2
    rw [hv, auth_verify_error ht]
    rw [show auth cfg now req (Except.error e2) res = _ from auth_verify_error ht]
    exact applyReject_logs_agnostic _ _ _ _ _ _ _ _ _

theorem rejections_are_401_or_403_witness :
    anonymousAccessible reqPostTok = false
    ∧ DISABLE_AUTH cfgProd = false
    ∧ tokenUsable (extractToken reqPostTok) = some "abc"
    ∧ RejectedWith
        (auth cfgProd 1000 reqPostTok
          (jwtVerify (SigningKeyLookup.failure "jwks unreachable") (Except.ok payloadPlain))
          resEmpty)
        401 "Invalid authorisation token." :=
  ⟨by decide, by decide, by decide,
    (rejections_are_401_or_403_and_key_failure_is_invalid_token cfgProd 1000 reqPostTok
      resEmpty "jwks unreachable" "abc" (Except.ok payloadPlain)
      (by decide) (by decide) (by decide)).2.2.1⟩

/-- C5: a request carrying a valid token whose path starts with
`/auth/user/` followed by the claim's own uuid, with raw method `GET`,
`PUT` or `PATCH`, is allowed even when the route is in no level of the
permission table. -/
theorem self_service_override_allows (cfg : AuthConfig) (now : Nat) (req : AuthRequest)
    (p : JwtPayload) (res : HttpResponse) (t : String)
    (ht : tokenUsable (extractToken req) = some t)
    (hexp : ¬ (p.exp.getD 0 < now))
    (hiss : p.iss = some PRODUCTION_AUTH_SERVER_URL)
    (haud : audTruthy p.aud = true)
    (hfail : audFailsCheck p.aud (requestUrl req) = false)
    (hpath : jsStartsWith req.path ("/auth/user/" ++ p.user.uuid) = true)
    (hm : req.method = "GET" ∨ req.method = "PUT" ∨ req.method = "PATCH") :
    (auth cfg now req (Except.ok p) res).nextCalled = true := by
  rw [auth_valid_token ht hexp hiss haud hfail]
  have hss : selfServiceRequest req p.user.uuid = true := by
    unfold selfServiceRequest
    rcases hm with h | h | h <;> simp [hpath, h]
  by_cases hA : authenticatedAccessible req = true
  · simp [hA]
  · simp [hA, hss]

theorem self_service_override_allows_witness :
    tokenUsable (extractToken reqSelfTok) = some "abc"
    ∧ ¬ (payloadPlain.exp.getD 0 < 1000)
    ∧ payloadPlain.iss = some PRODUCTION_AUTH_SERVER_URL
    ∧ audTruthy payloadPlain.aud = true
    ∧ audFailsCheck payloadPlain.aud (requestUrl reqSelfTok) = false
    ∧ jsStartsWith reqSelfTok.path ("/auth/user/" ++ payloadPlain.user.uuid) = true
    ∧ reqSelfTok.method = "PUT"
    ∧ (auth cfgProd 1000 reqSelfTok (Except.ok payloadPlain) resEmpty).nextCalled = true :=
  ⟨by decide, by decide, by decide, by decide, by decide, by decide, by decide,
    self_service_override_allows cfgProd 1000 reqSelfTok payloadPlain resEmpty "abc"
      (by decide) (by decide) (by decide) (by decide) (by decide) (by decide)
      (Or.inr (Or.inl (by decide)))⟩

/-- C2 counterexample: a fully valid token with `admin: true` presented on
`GET /tu-lalem` (a route in the `authenticatedUser` table) is allowed, but
the run emits no log events at all — in particular no line noting the admin
override, contradicting the claim that such a log line accompanies every
admin-token allow. -/
theorem admin_override_log_counterexample :
    (auth cfgProd 1000 reqTuLalemTok (Except.ok payloadAdmin) resEmpty).nextCalled = true
    ∧ (auth cfgProd 1000 reqTuLalemTok (Except.ok payloadAdmin) resEmpty).logs = []
    ∧ payloadAdmin.user.admin = some true
    ∧ ¬ (payloadAdmin.exp.getD 0 < 1000)
    ∧ payloadAdmin.iss = some PRODUCTION_AUTH_SERVER_URL
    ∧ audTruthy payloadAdmin.aud = true
    ∧ audFailsCheck payloadAdmin.aud (requestUrl reqTuLalemTok) = false := by
  decide

/-- C2 amended: a valid token with `admin: true` is always allowed,
whatever the permission table says; the override log line is emitted exactly
when the allow is decided by the admin branch, i.e. when the route is not
`authenticatedUser`-accessible and the request is not a matching
self-service request. -/
theorem admin_override_dominates (cfg : AuthConfig) (now : Nat) (req : AuthRequest)
    (p : JwtPayload) (res : HttpResponse) (t : String)
    (ht : tokenUsable (extractToken req) = some t)
    (hexp : ¬ (p.exp.getD 0 < now))
    (hiss : p.iss = some PRODUCTION_AUTH_SERVER_URL)
    (haud : audTruthy p.aud = true)
    (hfail : audFailsCheck p.aud (requestUrl req) = false)
    (hadmin : p.user.admin = some true) :
    (auth cfg now req (Except.ok p) res).nextCalled = true
    ∧ (LogEvent.adminOverrideDebug p.user.username req.method req.path
          ∈ (auth cfg now req (Except.ok p) res).logs
        ↔ (authenticatedAccessible req = false
            ∧ selfServiceRequest req p.user.uuid = false)) := by
  rw [auth_valid_token ht hexp hiss haud hfail]
  have hnotin : LogEvent.adminOverrideDebug p.user.username req.method req.path
      ∉ refreshWarnLogs req := by
    unfold refreshWarnLogs
    split <;> simp
  by_cases hA : authenticatedAccessible req = true
  · simp [hA, hnotin]
  · have hA' : authenticatedAccessible req = false := by
      simpa using hA
    by_cases hS : selfServiceRequest req p.user.uuid = true
    · simp [hA', hS, hnotin]
    · have hS' : selfServiceRequest req p.user.uuid = false := by
        simpa using hS
      simp [hA', hS', hadmin, hnotin]

theorem admin_override_dominates_witness :
    tokenUsable (extractToken reqPostTok) = some "abc"
    ∧ payloadAdmin.user.admin = some true
    ∧ (auth cfgProd 1000 reqPostTok (Except.ok payloadAdmin) resEmpty).nextCalled = true
    ∧ (LogEvent.adminOverrideDebug payloadAdmin.user.username reqPostTok.method
          reqPostTok.path
        ∈ (auth cfgProd 1000 reqPostTok (Except.ok payloadAdmin) resEmpty).logs
      ↔ (authenticatedAccessible reqPostTok = false
          ∧ selfServiceRequest reqPostTok payloadAdmin.user.uuid = false)) :=
  ⟨by decide, by decide,
    (admin_override_dominates cfgProd 1000 reqPostTok payloadAdmin resEmpty "abc"
      (by decide) (by decide) (by decide) (by decide) (by decide) (by decide)).1,
    (admin_override_dominates cfgProd 1000 reqPostTok payloadAdmin resEmpty "abc"
      (by decide) (by decide) (by decide) (by decide) (by decide) (by decide)).2⟩

/-- C3 counterexample: a payload carrying `aud: ""` — an audience claim that
is present but falsy in JavaScript — is rejected 401, but with the
does-not-specify message rather than a message naming the offending
audience value, contradicting the claim's description of the mismatch
message for every carried `aud`. -/
theorem empty_audience_message_counterexample :
    payloadEmptyAud.aud = some (Aud.one "")
    ∧ audSomeValid payloadEmptyAud.aud (requestUrl reqPostTok) = false
    ∧ RejectedWith (auth cfgProd 1000 reqPostTok (Except.ok payloadEmptyAud) resEmpty) 401
        "Access token does not specify intended audience."
    ∧ ¬ RejectedWith (auth cfgProd 1000 reqPostTok (Except.ok payloadEmptyAud) resEmpty) 401
        ("This access token is only valid for: " ++ apos
          ++ audToString payloadEmptyAud.aud ++ apos) := by
  decide

/-- C3 amended: with a verified, unexpired token whose issuer is accepted,
on a route that is not anonymous-accessible and with auth enabled: a falsy
`aud` (absent, or present as the empty string) rejects 401 with the
does-not-specify message; a truthy `aud` (single value or list) is rejected
401 with a message naming the offending value exactly when no audience
value equals the request's own origin or `*`; and the code's negative
audience test agrees with that positive phrasing. -/
theorem audience_enforcement (cfg : AuthConfig) (now : Nat) (req : AuthRequest)
    (p : JwtPayload) (res : HttpResponse) (t : String)
    (ht : tokenUsable (extractToken req) = some t)
    (hexp : ¬ (p.exp.getD 0 < now))
    (hiss : p.iss = some PRODUCTION_AUTH_SERVER_URL)
    (hanon : anonymousAccessible req = false)
    (hdis : DISABLE_AUTH cfg = false) :
    (audTruthy p.aud = false →
      RejectedWith (auth cfg now req (Except.ok p) res) 401
        "Access token does not specify intended audience.")
    ∧ (audTruthy p.aud = true →
        (RejectedWith (auth cfg now req (Except.ok p) res) 401
            ("This access token is only valid for: " ++ apos ++ audToString p.aud ++ apos)
          ↔ audSomeValid p.aud (requestUrl req) = false))
    ∧ (∀ (a : Aud) (u : String), audFailsCheck (some a) u = !(audSomeValid (some a) u)) := by
  refine ⟨?_, ?_, ?_⟩
  · intro haud
    rw [auth_no_audience ht hexp hiss haud, applyReject_emitted _ _ _ _ _ _ hanon hdis]
    simp [RejectedWith, sendError]
  · intro haud
    have hrel : audFailsCheck p.aud (requestUrl req)
        = !(audSomeValid p.aud (requestUrl req)) := by
      cases hpa : p.aud with
      | none =>
        rw [hpa] at haud
        simp [audTruthy] at haud
      | some a => cases a <;> rfl
    by_cases hv : audSomeValid p.aud (requestUrl req) = true
    · have hfail : audFailsCheck p.aud (requestUrl req) = false := by
        rw [hrel, hv]
        rfl
      rw [auth_valid_token ht hexp hiss haud hfail]
      constructor
      · intro hrej
        exfalso
        split at hrej
        · exact absurd hrej.1 (by simp)
        · split at hrej
          · exact absurd hrej.1 (by simp)
          · split at hrej
            · exact absurd hrej.1 (by simp)
            · rw [applyReject_emitted _ _ _ _ _ _ hanon hdis] at hrej
              simp [RejectedWith, sendError] at hrej
      · intro hv'
        rw [hv] at hv'
        cases hv'
    · have hv' : audSomeValid p.aud (requestUrl req) = false := by
        simpa using hv
      have hfail : audFailsCheck p.aud (requestUrl req) = true := by
        rw [hrel, hv']
        rfl
      rw [auth_aud_mismatch ht hexp hiss haud hfail,
        applyReject_emitted _ _ _ _ _ _ hanon hdis]
      constructor
      · intro _
        exact hv'
      · intro _
        simp [RejectedWith, sendError]
  · intro a u
    cases a <;> rfl

theorem audience_enforcement_witness :
    tokenUsable (extractToken reqPostTok) = some "abc"
    ∧ anonymousAccessible reqPostTok = false
    ∧ DISABLE_AUTH cfgProd = false
    ∧ audTruthy payloadEmptyAud.aud = false
    ∧ RejectedWith (auth cfgProd 1000 reqPostTok (Except.ok payloadEmptyAud) resEmpty) 401
        "Access token does not specify intended audience." :=
  ⟨by decide, by decide, by decide, by decide,
    (audience_enforcement cfgProd 1000 reqPostTok payloadEmptyAud resEmpty "abc"
      (by decide) (by decide) (by decide) (by decide) (by decide)).1 (by decide)⟩

/-- C6: with expiry enforcement enabled and a verified token on a
non-suppressed route, the run is rejected 401 as expired exactly when the
current epoch time in milliseconds exceeds the raw `exp` value (missing
`exp` defaulting to 0): hence every token without `exp` is rejected once
the clock is positive, and every token whose `exp` is a future instant in
epoch seconds — the standard JWT unit — but smaller than the millisecond
clock is still rejected as expired. -/
theorem expiry_compares_milliseconds_to_raw_exp (cfg : AuthConfig) (now : Nat)
    (req : AuthRequest) (p : JwtPayload) (res : HttpResponse) (t : String)
    (ht : tokenUsable (extractToken req) = some t)
    (hanon : anonymousAccessible req = false)
    (hdis : DISABLE_AUTH cfg = false) :
    (RejectedWith (auth cfg now req (Except.ok p) res) 401 "Access token is expired."
      ↔ p.exp.getD 0 < now)
    ∧ (p.exp = none → 0 < now →
        RejectedWith (auth cfg now req (Except.ok p) res) 401 "Access token is expired.")
    ∧ (∀ ex, p.exp = some ex → now / 1000 < ex → ex < now →
        RejectedWith (auth cfg now req (Except.ok p) res) 401 "Access token is expired.") := by
  have hmain : RejectedWith (auth cfg now req (Except.ok p) res) 401
      "Access token is expired." ↔ p.exp.getD 0 < now := by
    constructor
    · intro hrej
      by_cases hexp : p.exp.getD 0 < now
      · exact hexp
      · exfalso
        by_cases hiss : p.iss = some PRODUCTION_AUTH_SERVER_URL
        · by_cases haud : audTruthy p.aud = true
          · by_cases hfail : audFailsCheck p.aud (requestUrl req) = true
            · rw [auth_aud_mismatch ht hexp hiss haud hfail,
                applyReject_emitted _ _ _ _ _ _ hanon hdis] at hrej
              have hb := hrej.2.2
              simp [RejectedWith, sendError] at hb
              have hlen := congrArg String.length hb
              rw [String.length_append, String.length_append, String.length_append] at hlen
              have h1 : ("This access token is only valid for: ").length = 37 := by decide
              have h2 : apos.length = 1 := by decide
              have h3 : ("Access token is expired.").length = 24 := by decide
              rw [h1, h2, h3] at hlen
              omega
            · have hfail2 : audFailsCheck p.aud (requestUrl req) = false := by
                simpa using hfail
              rw [auth_valid_token ht hexp hiss haud hfail2] at hrej
              split at hrej
              · exact absurd hrej.1 (by simp)
              · split at hrej
                · exact absurd hrej.1 (by simp)
                · split at hrej
                  · exact absurd hrej.1 (by simp)
                  · rw [applyReject_emitted _ _ _ _ _ _ hanon hdis] at hrej
                    simp [RejectedWith, sendError] at hrej
          · have haud2 : audTruthy p.aud = false := by
              simpa using haud
            rw [auth_no_audience ht hexp hiss haud2,
              applyReject_emitted _ _ _ _ _ _ hanon hdis] at hrej
            have hb := hrej.2.2
            simp [RejectedWith, sendError] at hb
        · rw [auth_bad_issuer ht hexp hiss,
            applyReject_emitted _ _ _ _ _ _ hanon hdis] at hrej
          have hb := hrej.2.2
          simp [RejectedWith, sendError] at hb
          have hlen := congrArg String.length hb
          rw [String.length_append, String.length_append, String.length_append] at hlen
          have h1 : ("Invalid access token issuer: ").length = 29 := by decide
          have h2 : apos.length = 1 := by decide
          have h3 : ("Access token is expired.").length = 24 := by decide
          rw [h1, h2, h3] at hlen
          omega
    · intro hexp
      rw [auth_expired ht hexp, applyReject_emitted _ _ _ _ _ _ hanon hdis]
      simp [RejectedWith, sendError]
  refine ⟨hmain, ?_, ?_⟩
  · intro hnone hpos
    apply hmain.mpr
    rw [hnone]
    exact hpos
  · intro ex hsome hfuture hpast
    apply hmain.mpr
    rw [hsome]
    exact hpast

theorem expiry_compares_milliseconds_to_raw_exp_witness :
    tokenUsable (extractToken reqPostTok) = some "abc"
    ∧ anonymousAccessible reqPostTok = false
    ∧ DISABLE_AUTH cfgProd = false
    ∧ payloadExpired.exp = some 10
    ∧ 5000 / 1000 < 10
    ∧ 10 < 5000
    ∧ RejectedWith (auth cfgProd 5000 reqPostTok (Except.ok payloadExpired) resEmpty) 401
        "Access token is expired." :=
  ⟨by decide, by decide, by decide, by decide, by decide, by decide,
    (expiry_compares_milliseconds_to_raw_exp cfgProd 5000 reqPostTok payloadExpired
      resEmpty "abc" (by decide) (by decide) (by decide)).2.2 10
      (by decide) (by decide) (by decide)⟩

/-- C8: starting from a response with no `WWW-Authenticate` header, the
header ends up set exactly when a 401 rejection is actually emitted, its
value is `Bearer realm="<base url>", error="invalid_token",
error_description="<message>"` for the emitted message; suppressed
rejections and 403 leave it unset; the rejection path touches nothing else
(remaining headers unchanged, and an allowed run leaves the whole response
untouched); in particular an anonymous tokenless `GET /pages` is allowed
with no header set. -/
theorem www_authenticate_set_iff_401_emitted (cfg : AuthConfig) (now : Nat)
    (req : AuthRequest) (vr : Except String JwtPayload) (res : HttpResponse)
    (hw : res.wwwAuthenticate = none) :
    ((∃ v, (auth cfg now req vr res).res.wwwAuthenticate = some v)
      ↔ ((auth cfg now req vr res).nextCalled = false
          ∧ (auth cfg now req vr res).res.statusSent = some 401))
    ∧ ((auth cfg now req vr res).nextCalled = false →
        (auth cfg now req vr res).res.statusSent = some 401 →
        ∀ m, (auth cfg now req vr res).res.bodySent = some (getStatusText 401, m) →
          (auth cfg now req vr res).res.wwwAuthenticate
            = some (wwwAuthHeaderValue (AUTH_SERVER_URL cfg) m))
    ∧ (auth cfg now req vr res).res.otherHeaders = res.otherHeaders
    ∧ ((auth cfg now req vr res).nextCalled = true → (auth cfg now req vr res).res = res)
    ∧ ((auth cfgProd 7 reqPagesAnon (Except.error "nokey") resEmpty).nextCalled = true
        ∧ (auth cfgProd 7 reqPagesAnon (Except.error "nokey") resEmpty).res.wwwAuthenticate
          = none) := by
  refine ⟨?_, ?_, ?_, ?_, by decide⟩
  · simp only [auth]
    repeat' split
    all_goals first
      | exact applyReject_www401 _ _ _ _ _ _ _ hw
      | exact applyReject_www403 _ _ _ _ _ _ _ hw
      | simp [hw]
  · simp only [auth]
    repeat' split
    all_goals intro h1 h2 m h3
    all_goals first
      | exact applyReject_www_value _ _ _ _ _ _ _ _ h1 h3
      | simp at h1
      | (have hs := applyReject_status h1
         rw [hs] at h2
         simp at h2)
  · simp only [auth]
    repeat' split
    all_goals first
      | rfl
      | exact applyReject_otherHeaders _ _ _ _ _ _ _ _
  · simp only [auth]
    repeat' split
    all_goals intro h1
    all_goals first
      | rfl
      | exact applyReject_res_of_next h1

theorem www_authenticate_set_iff_401_emitted_witness :
    resEmpty.wwwAuthenticate = none
    ∧ ((∃ v, (auth cfgProd 9 reqPostPlain (Except.error "x") resEmpty).res.wwwAuthenticate
          = some v)
        ↔ ((auth cfgProd 9 reqPostPlain (Except.error "x") resEmpty).nextCalled = false
            ∧ (auth cfgProd 9 reqPostPlain (Except.error "x") resEmpty).res.statusSent
              = some 401)) :=
  ⟨by decide,
    (www_authenticate_set_iff_401_emitted cfgProd 9 reqPostPlain (Except.error "x")
      resEmpty (by decide)).1⟩

end GuzekUK
